import Mathlib

/-!
Shallow embedding of the self-update orchestrator of `thienanlktl/Pideployment`
(`auto_update.py`, `iot_pubsub_gui.py`, `update_service.py`, `webhook_listener.py`),
with theorems settling the frozen claims about its natural-language specification.

Python strings are modelled as `List Char`; results of external `subprocess` /
library calls (git, pip, `json.loads`, the filesystem) are supplied as explicit
environment values, since they are effects outside the program text.
-/

set_option maxRecDepth 20000

/-- Python `str` modelled as a list of characters. -/
abbrev PyStr := List Char

/-- ASCII whitespace recognised by Python `str.strip()` (the repository only
ever strips ASCII output of subprocesses). -/
def isSpaceChar (c : Char) : Bool :=
  c = ' ' || c = '\t' || c = '\n' || c = '\r' || c = '\x0b' || c = '\x0c'

/-- Python `s.strip()`: drop leading and trailing whitespace. -/
def pyStrip (s : PyStr) : PyStr :=
  ((s.dropWhile isSpaceChar).reverse.dropWhile isSpaceChar).reverse

/-- Python `s.startswith(pre)`: `beginsWith pre s` is true when `pre` leads `s`. -/
def beginsWith : PyStr → PyStr → Bool
  | [], _ => true
  | _ :: _, [] => false
  | p :: ps, c :: cs => p = c && beginsWith ps cs

/-- Python `s.split(sep)` for a one-character separator: keeps empty pieces,
and the empty string splits to `[""]`. -/
def splitOnChar (sep : Char) : PyStr → List PyStr
  | [] => [[]]
  | c :: cs =>
    let rest := splitOnChar sep cs
    if c = sep then [] :: rest
    else
      match rest with
      | h :: t => (c :: h) :: t
      | [] => [[c]]

/-- ASCII decimal digit test. -/
def isDigitChar (c : Char) : Bool := 48 ≤ c.toNat && c.toNat ≤ 57

/-- Accumulate the value of a digit string; `none` on a non-digit. -/
def digitsValAux : List Char → Nat → Option Nat
  | [], acc => some acc
  | c :: cs, acc =>
    if isDigitChar c then digitsValAux cs (acc * 10 + (c.toNat - 48)) else none

/-- Value of a non-empty all-digit string, else `none`. -/
def digitsVal (l : List Char) : Option Nat :=
  if l.isEmpty then none else digitsValAux l 0

/-- Python `int(s)`: strip whitespace, optional sign, decimal digits; `none`
models `ValueError`.  (Digit-grouping underscores, accepted by Python since
3.6, are not modelled; no claim involves them.) -/
def pyInt (s : PyStr) : Option Int :=
  match pyStrip s with
  | '+' :: rest => (digitsVal rest).map Int.ofNat
  | '-' :: rest => (digitsVal rest).map (fun n => -(n : Int))
  | l => (digitsVal l).map Int.ofNat

/-- Fuelled worker for `pyReplace`; fuel `s.length` suffices because each step
consumes at least one character of the input when the pattern is non-empty. -/
def replaceAll (fuel : Nat) (pat rep : PyStr) : PyStr → PyStr
  | [] => []
  | c :: cs =>
    match fuel with
    | 0 => c :: cs
    | fuel + 1 =>
      if pat ≠ [] && beginsWith pat (c :: cs) then
        rep ++ replaceAll fuel pat rep ((c :: cs).drop pat.length)
      else
        c :: replaceAll fuel pat rep cs

/-- Python `s.replace(pat, rep)`: replace every non-overlapping occurrence,
left to right.  (The repository only calls it with non-empty patterns, so the
empty-pattern behaviour of Python, which interleaves `rep`, is not modelled.) -/
def pyReplace (s pat rep : PyStr) : PyStr :=
  replaceAll s.length pat rep s

/-- Python `a < b` on strings: lexicographic comparison by code point. -/
def lexLt : PyStr → PyStr → Bool
  | [], [] => false
  | [], _ :: _ => true
  | _ :: _, [] => false
  | a :: as, b :: bs =>
    if a.toNat < b.toNat then true
    else if b.toNat < a.toNat then false
    else lexLt as bs

/-- The `-1 / 0 / 1` comparison the repository derives from Python string
comparison (`if a < b ... elif a > b ... else ...`). -/
def pyStrCmp (a b : PyStr) : Int :=
  if lexLt a b then -1 else if lexLt b a then 1 else 0

/-- Outcome of one `subprocess.run` invocation: completed with return code and
captured streams, raised `TimeoutExpired`, or raised some other exception
whose text is `msg`. -/
inductive CmdResult where
  | ok (returncode : Int) (stdout stderr : PyStr)
  | timeout
  | exn (msg : PyStr)
deriving DecidableEq

/-! ## `iot_pubsub_gui.py` — the version comparator (`_compare_versions`) -/

/-- The comparison loop of `_compare_versions` (iot_pubsub_gui.py:1212-1217):
walk two lists in step (Python `zip`), first difference decides. -/
def lexCmp : List Int → List Int → Int
  | p1 :: rest1, p2 :: rest2 =>
    if p1 < p2 then -1 else if p1 > p2 then 1 else lexCmp rest1 rest2
  | _, _ => 0

/-- The numeric path of `_compare_versions` (iot_pubsub_gui.py:1206-1217):
right-pad the shorter component list with zeros to the common length, then
compare component-wise. -/
def compareParts (parts1 parts2 : List Int) : Int :=
  let maxLen := max parts1.length parts2.length
  lexCmp (parts1 ++ List.replicate (maxLen - parts1.length) 0)
         (parts2 ++ List.replicate (maxLen - parts2.length) 0)

/-- `[int(x) for x in v.split('.')]` (iot_pubsub_gui.py:1203-1204); `none`
models the `ValueError` that sends the call to the string path. -/
def parseParts (v : PyStr) : Option (List Int) :=
  (splitOnChar '.' v).mapM pyInt

/-- `_compare_versions` (iot_pubsub_gui.py:1199-1224): numeric component
comparison when both sides parse, else plain string comparison for both. -/
def _compare_versions (v1 v2 : PyStr) : Int :=
  match parseParts v1, parseParts v2 with
  | some parts1, some parts2 => compareParts parts1 parts2
  | _, _ => pyStrCmp v1 v2

/-! ## `auto_update.py` — version resolver, release catalog, safe update -/

namespace AutoUpdate

/-- External effects observed by `auto_update.py`: one value per subprocess
invocation or filesystem probe, in source order. -/
structure Env where
  /-- `git rev-parse --abbrev-ref HEAD` (get_current_version method 1, :49-55). -/
  revParseHead : CmdResult
  /-- `(repo_path / "VERSION").exists()` (:68). -/
  versionFileExists : Bool
  /-- content read from the VERSION file; `none` models a read exception (:69-76). -/
  versionFileRead : Option PyStr
  /-- `git describe --tags --always` (method 3, :80-86). -/
  describeTags : CmdResult
  /-- second `git rev-parse --abbrev-ref HEAD` (method 4, :99-105). -/
  revParseHead2 : CmdResult
  /-- `git branch -r` (get_release_branches, :164-170). -/
  branchR : CmdResult
  /-- `git status --porcelain` (has_uncommitted_changes, :281-287). -/
  statusPorcelain : CmdResult
  /-- result of `create_backup` (:300-319): backup directory path, or `none`
  when `shutil.copytree` raised. -/
  backupResult : Option PyStr
  /-- `git fetch origin` (perform_update step 1, :356-362). -/
  fetchOrigin : CmdResult
  /-- `git checkout <branch>` (step 3, :372-378). -/
  checkoutBranch : CmdResult
  /-- `git checkout -b <branch> <target>` (step 3 fallback, :382-388). -/
  checkoutTrack : CmdResult
  /-- `git reset --hard <target>` (step 4, :394-400). -/
  resetHard : CmdResult
  /-- `(repo_path / "requirements.txt").exists()` (:408). -/
  requirementsExists : Bool
  /-- `pip install -r requirements.txt --upgrade` (step 5, :417-423). -/
  pipInstall : CmdResult

/-- Method 1 of `get_current_version` (auto_update.py:48-64): current branch
name, when it starts with the lowercase label `release/`. -/
def gcvBranch (env : Env) : Option PyStr :=
  match env.revParseHead with
  | .ok rc out _ =>
    if rc = 0 then
      let branch_name := pyStrip out
      if beginsWith "release/".data branch_name then
        let version_str := pyStrip (pyReplace branch_name "release/".data "".data)
        if version_str ≠ [] then some version_str else none
      else none
    else none
  | _ => none

/-- Method 2 (auto_update.py:67-76): a non-empty trimmed `VERSION` file. -/
def gcvVersionFile (env : Env) : Option PyStr :=
  if env.versionFileExists then
    match env.versionFileRead with
    | some content =>
      let version_str := pyStrip content
      if version_str ≠ [] then some version_str else none
    | none => none
  else none

/-- Method 3 (auto_update.py:79-95): `git describe`, leading `v`s stripped and
truncated at the first `-`. -/
def gcvDescribe (env : Env) : Option PyStr :=
  match env.describeTags with
  | .ok rc out _ =>
    if rc = 0 then
      let describe_output := pyStrip out
      let version_str := (describe_output.dropWhile (fun c => c = 'v')).takeWhile (fun c => c ≠ '-')
      if version_str ≠ [] then some version_str else none
    else none
  | _ => none

/-- Method 4 (auto_update.py:98-111): the raw branch name, uninterpreted. -/
def gcvAnyBranch (env : Env) : Option PyStr :=
  match env.revParseHead2 with
  | .ok rc out _ => if rc = 0 then some (pyStrip out) else none
  | _ => none

/-- `get_current_version` (auto_update.py:34-114): the four probes in strict
priority order, each swallowing its own failure. -/
def get_current_version (env : Env) : Option PyStr :=
  match gcvBranch env with
  | some v => some v
  | none =>
    match gcvVersionFile env with
    | some v => some v
    | none =>
      match gcvDescribe env with
      | some v => some v
      | none => gcvAnyBranch env

/-- `get_release_branches` (auto_update.py:150-190): list `git branch -r`
output, keep lines starting with `origin/release/`, strip that label to get
the version literal and pair it with the full remote ref. -/
def get_release_branches (env : Env) : List (PyStr × PyStr) :=
  match env.branchR with
  | .ok rc out _ =>
    if rc ≠ 0 then []
    else
      (splitOnChar '\n' out).foldl
        (fun acc rawLine =>
          let line := pyStrip rawLine
          if beginsWith "origin/release/".data line then
            let version_str := pyStrip (pyReplace line "origin/release/".data "".data)
            if version_str ≠ [] then acc ++ [(version_str, line)] else acc
          else acc)
        []
  | _ => []

/-- `has_uncommitted_changes` (auto_update.py:271-297): non-empty porcelain
status means dirty; a failing or raising probe is treated as dirty. -/
def has_uncommitted_changes (env : Env) : Bool :=
  match env.statusPorcelain with
  | .ok rc out _ => if rc = 0 then pyStrip out ≠ [] else true
  | _ => true

/-- The git / pip invocations `perform_update` can reach, in order. -/
inductive Step where
  | gitStatus
  | backup
  | fetch
  | checkout
  | checkoutTrack
  | resetHard
  | pipInstall
deriving DecidableEq

/-- Result of `perform_update`: the returned `(success, message)` pair plus
the warnings logged along the way (auto_update.py logs backup and pip
failures as warnings without failing). -/
structure UpdateOutcome where
  success : Bool
  message : PyStr
  warnings : List PyStr
deriving DecidableEq

/-- The dirty-working-tree refusal message (auto_update.py:344). -/
def dirtyMsg : PyStr :=
  "Cannot update: There are uncommitted changes in the repository. Please commit or stash them first.".data

/-- The timeout message of the outer `except subprocess.TimeoutExpired`
(auto_update.py:437). -/
def timedOutMsg : PyStr := "Update timed out. Please try again.".data

/-- `perform_update` (auto_update.py:322-441), returning the outcome together
with the trace of external steps actually executed.  `update_dependencies`
and `create_backup_before_update` are the keyword arguments. -/
def perform_update (env : Env)
    (update_dependencies create_backup_before_update : Bool) :
    UpdateOutcome × List Step :=
  if has_uncommitted_changes env then
    (⟨false, dirtyMsg, []⟩, [Step.gitStatus])
  else
    let backup_path : Option PyStr :=
      if create_backup_before_update then env.backupResult else none
    let backupWarn : List PyStr :=
      if create_backup_before_update ∧ env.backupResult = none then
        ["Backup creation failed, but continuing with update".data]
      else []
    let tr0 : List Step :=
      if create_backup_before_update then [Step.gitStatus, Step.backup]
      else [Step.gitStatus]
    match env.fetchOrigin with
    | .timeout => (⟨false, timedOutMsg, backupWarn⟩, tr0 ++ [Step.fetch])
    | .exn m => (⟨false, "Update failed: ".data ++ m, backupWarn⟩, tr0 ++ [Step.fetch])
    | .ok rcF _ errF =>
      if rcF ≠ 0 then
        (⟨false, "git fetch failed: ".data ++ errF, backupWarn⟩, tr0 ++ [Step.fetch])
      else
        let tr1 := tr0 ++ [Step.fetch]
        let afterCheckout :
            (UpdateOutcome × List Step) ⊕ (List Step) :=
          match env.checkoutBranch with
          | .timeout => Sum.inl (⟨false, timedOutMsg, backupWarn⟩, tr1 ++ [Step.checkout])
          | .exn m => Sum.inl (⟨false, "Update failed: ".data ++ m, backupWarn⟩, tr1 ++ [Step.checkout])
          | .ok rcC _ _ =>
            if rcC ≠ 0 then
              match env.checkoutTrack with
              | .timeout =>
                Sum.inl (⟨false, timedOutMsg, backupWarn⟩, tr1 ++ [Step.checkout, Step.checkoutTrack])
              | .exn m =>
                Sum.inl (⟨false, "Update failed: ".data ++ m, backupWarn⟩, tr1 ++ [Step.checkout, Step.checkoutTrack])
              | .ok rcT _ errT =>
                if rcT ≠ 0 then
                  Sum.inl (⟨false, "git checkout failed: ".data ++ errT, backupWarn⟩,
                    tr1 ++ [Step.checkout, Step.checkoutTrack])
                else Sum.inr (tr1 ++ [Step.checkout, Step.checkoutTrack])
            else Sum.inr (tr1 ++ [Step.checkout])
        match afterCheckout with
        | Sum.inl done => done
        | Sum.inr tr2 =>
          match env.resetHard with
          | .timeout => (⟨false, timedOutMsg, backupWarn⟩, tr2 ++ [Step.resetHard])
          | .exn m => (⟨false, "Update failed: ".data ++ m, backupWarn⟩, tr2 ++ [Step.resetHard])
          | .ok rcR _ errR =>
            if rcR ≠ 0 then
              (⟨false, "git reset failed: ".data ++ errR, backupWarn⟩, tr2 ++ [Step.resetHard])
            else
              let tr3 := tr2 ++ [Step.resetHard]
              let successMsg : PyStr :=
                "Update completed successfully!".data ++
                  (match backup_path with
                   | some p => "\nBackup created at: ".data ++ p
                   | none => [])
              if update_dependencies ∧ env.requirementsExists then
                match env.pipInstall with
                | .timeout => (⟨false, timedOutMsg, backupWarn⟩, tr3 ++ [Step.pipInstall])
                | .exn m =>
                  (⟨false, "Update failed: ".data ++ m, backupWarn⟩, tr3 ++ [Step.pipInstall])
                | .ok rcP _ errP =>
                  if rcP ≠ 0 then
                    (⟨true, successMsg,
                        backupWarn ++ ["pip upgrade had warnings: ".data ++ errP]⟩,
                      tr3 ++ [Step.pipInstall])
                  else
                    (⟨true, successMsg, backupWarn⟩, tr3 ++ [Step.pipInstall])
              else
                (⟨true, successMsg, backupWarn⟩, tr3)

end AutoUpdate

/-! ## `webhook_listener.py` — the remote trigger endpoints -/

namespace WebhookListener

/-- `verify_webhook_signature` (webhook_listener.py:141-192).  The first
executable statement is `return True` (line 155, "verification disabled -
allowing all requests"); the HMAC comparison at lines 157-192 is unreachable
dead code, so the embedded function is constantly `true`. -/
def verify_webhook_signature (secret : PyStr) (payload_body : List Nat)
    (signature_header : Option PyStr) : Bool :=
  true

/-- HTTP methods routed to the listener's endpoints. -/
inductive Method where
  | GET
  | POST
  | OPTIONS
deriving DecidableEq

/-- Listener state relevant to the update flow: the number of
`run_update_script` background threads currently alive.  Every trigger path
runs `threading.Thread(target=run_update_in_background, daemon=True).start()`
with no guard, so handling a request can only add a thread. -/
structure ListenerState where
  activeUpdates : Nat
deriving DecidableEq

/-- Completion of one background `run_update_script` thread (the only way the
count decreases). -/
def updateFinished (s : ListenerState) : ListenerState :=
  ⟨s.activeUpdates - 1⟩

/-- The `/webhook` route handler (webhook_listener.py:398-541).  `body` is the
raw request body, `signature` the `X-Hub-Signature-256` header, `jsonParses`
the outcome of the external `json.loads` call.  Returns the new listener
state and the HTTP status.  The handler reads the signature header only to
log it (:441-445) and starts the update thread unconditionally for any
non-empty JSON body (:529-541); malformed input is answered 200 without
triggering (:449-476). -/
def webhook (method : Method) (body : List Nat) (signature : Option PyStr)
    (jsonParses : Bool) (s : ListenerState) : ListenerState × Nat :=
  match method with
  | .GET => (s, 200)
  | .OPTIONS => (s, 200)
  | .POST =>
    if body.isEmpty then (s, 200)
    else if jsonParses then (⟨s.activeUpdates + 1⟩, 202)
    else (s, 200)

/-- The `/trigger` route handler (webhook_listener.py:633-676): both GET and
POST spawn the update thread and answer 202, with no signature check and no
guard. -/
def trigger (method : Method) (s : ListenerState) : ListenerState × Nat :=
  (⟨s.activeUpdates + 1⟩, 202)

/-- The root `/` route handler (webhook_listener.py:679-876): OPTIONS answers
200; POST behaves like the `/webhook` handler; a plain GET starts the full
update-and-restart script in a background thread and answers 202
(:820-876). -/
def index (method : Method) (body : List Nat) (signature : Option PyStr)
    (jsonParses : Bool) (s : ListenerState) : ListenerState × Nat :=
  match method with
  | .OPTIONS => (s, 200)
  | .POST =>
    if body.isEmpty then (s, 200)
    else if jsonParses then (⟨s.activeUpdates + 1⟩, 202)
    else (s, 200)
  | .GET => (⟨s.activeUpdates + 1⟩, 202)

end WebhookListener

/-! ## `iot_pubsub_gui.py` — the in-app updater `_do_git_update` -/

namespace IotGui

/-- External effects observed by `_do_git_update` (iot_pubsub_gui.py:1319-1529). -/
structure GitUpdateEnv where
  /-- `GITPYTHON_AVAILABLE` (:1341). -/
  gitpythonAvailable : Bool
  /-- `git.Repo(script_dir)` succeeded (:1346-1351). -/
  repoOpenOk : Bool
  /-- `repo.bare` (:1353). -/
  bare : Bool
  /-- `repo.is_dirty()` (:1359). -/
  isDirty : Bool
  /-- `git reset --hard HEAD`, check=True (:1363-1370). -/
  resetHead : CmdResult
  /-- `git clean -fd`, no check (:1372-1378): a non-zero exit is ignored. -/
  cleanFd : CmdResult
  /-- `git fetch origin Release/<v> --depth=1`, check=True (:1418-1426). -/
  fetch : CmdResult
  /-- `repo.git.checkout(release_branch)` raised no exception (:1452). -/
  checkoutOk : Bool
  /-- `repo.git.checkout("-b", ..., "origin/...")` raised no exception (:1456). -/
  checkoutTrackOk : Bool
  /-- text of the checkout exception, used in the failure message (:1461). -/
  checkoutErr : PyStr
  /-- `git pull origin Release/<v> --depth=1`, check=True (:1471-1479). -/
  pull : CmdResult
  /-- `git reset --hard origin/Release/<v>` fallback, check=True (:1490-1498). -/
  resetOrigin : CmdResult

/-- The long-running stages of `_do_git_update`, in order.  `discard` only
runs when the tree is dirty (the force path resets and cleans it). -/
inductive GStage where
  | discard
  | fetch
  | checkout
  | pull
deriving DecidableEq

/-- `(e.stderr or e.stdout or "").strip()` with a final fallback, as the
handlers of `CalledProcessError` build their messages. -/
def errText (out err fallback : PyStr) : PyStr :=
  if err ≠ [] then pyStrip err else if out ≠ [] then pyStrip out else fallback

/-- `signals.finished.emit(success, message)` payload. -/
structure Finished where
  success : Bool
  message : PyStr
deriving DecidableEq

/-- The cancelled outcome (`finished.emit(False, "Update cancelled.")`). -/
def cancelledFin : Finished := ⟨false, "Update cancelled.".data⟩

/-- The success outcome (iot_pubsub_gui.py:1518-1521). -/
def successFin : Finished :=
  ⟨true, "Update complete. Restart the application to apply changes.".data⟩

/-- `cancel_event.is_set()` read at checkpoint `k`.  `cancelFrom = some j`
means the cooperative flag (a `threading.Event`, set once and never cleared)
first reads set at checkpoint `j`; the checkpoints are the four `is_set`
calls at iot_pubsub_gui.py:1333 (before anything), :1413 (before the fetch),
:1447 (before the checkout) and :1465 (before the pull).  A cancellation
requested while stage `i` runs is therefore first seen at checkpoint
`i + 1`. -/
def cancelSeen (cancelFrom : Option Nat) (k : Nat) : Bool :=
  match cancelFrom with
  | none => false
  | some j => decide (j ≤ k)

/-- `_do_git_update` (iot_pubsub_gui.py:1319-1529), returning the
`finished` payload and the trace of stages that actually ran.  The
cancellation flag is consulted only at the four checkpoints; every stage,
once begun, runs to completion (the blocking `subprocess.run` calls are never
interrupted). -/
def _do_git_update (env : GitUpdateEnv) (cancelFrom : Option Nat) :
    Finished × List GStage :=
  if cancelSeen cancelFrom 0 then (cancelledFin, [])
  else if !env.gitpythonAvailable then
    (⟨false, "GitPython not installed. Run: pip install gitpython".data⟩, [])
  else if !env.repoOpenOk then
    (⟨false, "Not a git repository or access denied.".data⟩, [])
  else if env.bare then
    (⟨false, "Not a git repository (bare).".data⟩, [])
  else
    let afterDiscard : (Finished × List GStage) ⊕ (List GStage) :=
      if env.isDirty then
        match env.resetHead with
        | .timeout =>
          Sum.inl (⟨false, "Could not discard local changes (timeout).".data⟩, [GStage.discard])
        | .exn m => Sum.inl (⟨false, m⟩, [GStage.discard])
        | .ok rc out err =>
          if rc ≠ 0 then
            Sum.inl (⟨false, "Could not discard local changes: ".data ++
              errText out err "CalledProcessError".data⟩, [GStage.discard])
          else
            match env.cleanFd with
            | .timeout =>
              Sum.inl (⟨false, "Could not discard local changes (timeout).".data⟩, [GStage.discard])
            | .exn m => Sum.inl (⟨false, m⟩, [GStage.discard])
            | .ok _ _ _ => Sum.inr [GStage.discard]
      else Sum.inr []
    match afterDiscard with
    | Sum.inl done => done
    | Sum.inr tr0 =>
      if cancelSeen cancelFrom 1 then (cancelledFin, tr0)
      else
        match env.fetch with
        | .timeout =>
          (⟨false, "Fetch timed out. Check network and try again.".data⟩, tr0 ++ [GStage.fetch])
        | .exn m => (⟨false, "Fetch failed: ".data ++ m⟩, tr0 ++ [GStage.fetch])
        | .ok rcF outF errF =>
          if rcF ≠ 0 then
            (⟨false, "Fetch failed: ".data ++ errText outF errF "Fetch failed.".data⟩,
              tr0 ++ [GStage.fetch])
          else
            let tr1 := tr0 ++ [GStage.fetch]
            if cancelSeen cancelFrom 2 then (cancelledFin, tr1)
            else
              if !env.checkoutOk ∧ !env.checkoutTrackOk then
                (⟨false, "Checkout failed: ".data ++ env.checkoutErr⟩, tr1 ++ [GStage.checkout])
              else
                let tr2 := tr1 ++ [GStage.checkout]
                if cancelSeen cancelFrom 3 then (cancelledFin, tr2)
                else
                  match env.pull with
                  | .timeout =>
                    (⟨false, "Pull timed out. Check network and try again.".data⟩,
                      tr2 ++ [GStage.pull])
                  | .exn m => (⟨false, "Update failed: ".data ++ m⟩, tr2 ++ [GStage.pull])
                  | .ok rcP outP errP =>
                    if rcP ≠ 0 then
                      match env.resetOrigin with
                      | .timeout => (⟨false, "Update timed out.".data⟩, tr2 ++ [GStage.pull])
                      | .exn m => (⟨false, "Update failed: ".data ++ m⟩, tr2 ++ [GStage.pull])
                      | .ok rcR outR errR =>
                        if rcR ≠ 0 then
                          (⟨false, "Update failed: ".data ++
                            errText outR errR "CalledProcessError".data⟩, tr2 ++ [GStage.pull])
                        else (successFin, tr2 ++ [GStage.pull])
                    else (successFin, tr2 ++ [GStage.pull])

end IotGui

/-! ## `update_service.py` — the detached relauncher's update -/

namespace UpdateService

/-- The structured reasons behind the exceptions `perform_update`
(update_service.py:77-242) raises; each constructor corresponds to one
`raise Exception(...)` site or an uncaught `subprocess.TimeoutExpired`. -/
inductive SvcError where
  /-- `git fetch failed: {stderr}` (:102). -/
  | fetchFailed (stderr : PyStr)
  /-- `git checkout failed: {stderr}` (:125). -/
  | checkoutFailed (stderr : PyStr)
  /-- `git pull/reset failed: {stderr}` (:147). -/
  | pullResetFailed (stderr : PyStr)
  /-- `requirements.txt not found at ...` (:177). -/
  | requirementsMissing
  /-- `Failed to install dependencies: {error_output}` (:208). -/
  | depInstallFailed (errorOutput : PyStr)
  /-- `Some required packages were not installed correctly` (:233). -/
  | packagesUnverified
  /-- an uncaught `subprocess.TimeoutExpired` from one of the runs. -/
  | cmdTimeout
  /-- any other uncaught exception, with its text. -/
  | otherExn (msg : PyStr)
deriving DecidableEq

/-- Result of `update_service.perform_update`: the venv python path on
success, or the exception that aborted it (re-raised to `main`, which exits
with status 1 and never restarts the application). -/
inductive SvcResult where
  | ok (venvPython : PyStr)
  | raised (e : SvcError)
deriving DecidableEq

/-- External effects observed by `update_service.perform_update`. -/
structure Env where
  /-- `git fetch origin` (:94-100). -/
  fetch : CmdResult
  /-- `git checkout Release/<v>` (:106-112). -/
  checkout : CmdResult
  /-- `git checkout -b Release/<v> origin/Release/<v>` (:117-123). -/
  checkoutTrack : CmdResult
  /-- `git pull origin Release/<v>` (:129-135). -/
  pull : CmdResult
  /-- `git reset --hard origin/Release/<v>` fallback (:139-145). -/
  resetHard : CmdResult
  /-- `get_venv_python` before any venv creation (:154). -/
  venvPython : Option PyStr
  /-- `python -m venv venv` (:158-164); failures are caught and logged (:168). -/
  venvCreate : CmdResult
  /-- `get_venv_python` again after a successful creation (:166). -/
  venvPythonAfterCreate : Option PyStr
  /-- `sys.executable`, the system fallback interpreter (:172). -/
  sysExecutable : PyStr
  /-- `requirements_file.exists()` (:176). -/
  requirementsExists : Bool
  /-- `pip install --upgrade pip` (:184-190); non-zero exit only warns. -/
  pipUpgrade : CmdResult
  /-- `pip install -r requirements.txt --upgrade` (:198-204). -/
  pipInstall : CmdResult
  /-- `pip show <package>` per key package (:217-223). -/
  pipShow : PyStr → CmdResult

/-- `key_packages` (update_service.py:214). -/
def keyPackages : List PyStr :=
  ["PyQt6".data, "awsiotsdk".data, "awscrt".data, "requests".data, "cryptography".data]

/-- The verification loop over `key_packages` (update_service.py:215-230):
`all_verified` stays true only if every `pip show` exits 0; a timeout or
other exception inside the loop propagates. -/
def verifyPackages (f : PyStr → CmdResult) : List PyStr → Except SvcError Bool
  | [] => Except.ok true
  | p :: ps =>
    match f p with
    | .ok rc _ _ => (verifyPackages f ps).map (fun b => b && decide (rc = 0))
    | .timeout => Except.error SvcError.cmdTimeout
    | .exn m => Except.error (SvcError.otherExn m)

/-- `perform_update` (update_service.py:77-242): fetch, checkout (with
tracking-branch fallback), pull (with hard-reset fallback), venv resolution,
then dependency installation — where, unlike `auto_update.perform_update`, a
non-zero exit of `pip install -r requirements.txt --upgrade` raises and
aborts the whole update (:206-208). -/
def perform_update (env : Env) : SvcResult :=
  match env.fetch with
  | .timeout => .raised .cmdTimeout
  | .exn m => .raised (.otherExn m)
  | .ok rcF _ errF =>
    if rcF ≠ 0 then .raised (.fetchFailed errF)
    else
      let afterCheckout : Option SvcError :=
        match env.checkout with
        | .timeout => some .cmdTimeout
        | .exn m => some (.otherExn m)
        | .ok rcC _ _ =>
          if rcC ≠ 0 then
            match env.checkoutTrack with
            | .timeout => some .cmdTimeout
            | .exn m => some (.otherExn m)
            | .ok rcT _ errT => if rcT ≠ 0 then some (.checkoutFailed errT) else none
          else none
      match afterCheckout with
      | some e => .raised e
      | none =>
        let afterPull : Option SvcError :=
          match env.pull with
          | .timeout => some .cmdTimeout
          | .exn m => some (.otherExn m)
          | .ok rcP _ _ =>
            if rcP ≠ 0 then
              match env.resetHard with
              | .timeout => some .cmdTimeout
              | .exn m => some (.otherExn m)
              | .ok rcR _ errR => if rcR ≠ 0 then some (.pullResetFailed errR) else none
            else none
        match afterPull with
        | some e => .raised e
        | none =>
          let venv_python : Option PyStr :=
            match env.venvPython with
            | some p => some p
            | none =>
              match env.venvCreate with
              | .ok rc _ _ => if rc = 0 then env.venvPythonAfterCreate else none
              | _ => none
          let venv := venv_python.getD env.sysExecutable
          if !env.requirementsExists then .raised .requirementsMissing
          else
            match env.pipUpgrade with
            | .timeout => .raised .cmdTimeout
            | .exn m => .raised (.otherExn m)
            | .ok _ _ _ =>
              match env.pipInstall with
              | .timeout => .raised .cmdTimeout
              | .exn m => .raised (.otherExn m)
              | .ok rcI outI errI =>
                if rcI ≠ 0 then
                  .raised (.depInstallFailed (if errI ≠ [] then errI else outI))
                else
                  match verifyPackages env.pipShow keyPackages with
                  | .error e => .raised e
                  | .ok allVerified =>
                    if !allVerified then .raised .packagesUnverified
                    else .ok venv

end UpdateService

/-! ## Concrete environments used by witnesses and counterexamples -/

/-- A repository whose `git status --porcelain` reports one modified file;
every other probe would succeed. -/
def c2Env : AutoUpdate.Env where
  revParseHead := CmdResult.ok 0 "main".data []
  versionFileExists := false
  versionFileRead := none
  describeTags := CmdResult.ok 0 "v1.0.0".data []
  revParseHead2 := CmdResult.ok 0 "main".data []
  branchR := CmdResult.ok 0 [] []
  statusPorcelain := CmdResult.ok 0 " M iot_pubsub_gui.py".data []
  backupResult := some "backup_20240101_000000".data
  fetchOrigin := CmdResult.ok 0 [] []
  checkoutBranch := CmdResult.ok 0 [] []
  checkoutTrack := CmdResult.ok 0 [] []
  resetHard := CmdResult.ok 0 [] []
  requirementsExists := true
  pipInstall := CmdResult.ok 0 [] []

/-- A repository whose `git status --porcelain` probe times out. -/
def c9Env : AutoUpdate.Env where
  revParseHead := CmdResult.ok 0 "main".data []
  versionFileExists := false
  versionFileRead := none
  describeTags := CmdResult.ok 0 "v1.0.0".data []
  revParseHead2 := CmdResult.ok 0 "main".data []
  branchR := CmdResult.ok 0 [] []
  statusPorcelain := CmdResult.timeout
  backupResult := some "backup_20240101_000000".data
  fetchOrigin := CmdResult.ok 0 [] []
  checkoutBranch := CmdResult.ok 0 [] []
  checkoutTrack := CmdResult.ok 0 [] []
  resetHard := CmdResult.ok 0 [] []
  requirementsExists := true
  pipInstall := CmdResult.ok 0 [] []

/-- A run whose current branch is `Release/2.3.4`, with no `VERSION` file
and a failing `git describe`, so resolution falls through to the raw branch
name. -/
def c6EnvUpper : AutoUpdate.Env where
  revParseHead := CmdResult.ok 0 "Release/2.3.4\n".data []
  versionFileExists := false
  versionFileRead := none
  describeTags := CmdResult.ok 128 [] "fatal: no tags".data
  revParseHead2 := CmdResult.ok 0 "Release/2.3.4\n".data []
  branchR := CmdResult.ok 0 [] []
  statusPorcelain := CmdResult.ok 0 [] []
  backupResult := none
  fetchOrigin := CmdResult.ok 0 [] []
  checkoutBranch := CmdResult.ok 0 [] []
  checkoutTrack := CmdResult.ok 0 [] []
  resetHard := CmdResult.ok 0 [] []
  requirementsExists := false
  pipInstall := CmdResult.ok 0 [] []

/-- A run whose current branch is `release/1.2.3` (lowercase label). -/
def c6EnvLower : AutoUpdate.Env where
  revParseHead := CmdResult.ok 0 "release/1.2.3\n".data []
  versionFileExists := false
  versionFileRead := none
  describeTags := CmdResult.ok 128 [] "fatal: no tags".data
  revParseHead2 := CmdResult.ok 0 "release/1.2.3\n".data []
  branchR := CmdResult.ok 0 [] []
  statusPorcelain := CmdResult.ok 0 [] []
  backupResult := none
  fetchOrigin := CmdResult.ok 0 [] []
  checkoutBranch := CmdResult.ok 0 [] []
  checkoutTrack := CmdResult.ok 0 [] []
  resetHard := CmdResult.ok 0 [] []
  requirementsExists := false
  pipInstall := CmdResult.ok 0 [] []

/-- A run whose `git branch -r` lists a lowercase release branch, an
uppercase Release branch and main. -/
def c6EnvBranches : AutoUpdate.Env where
  revParseHead := CmdResult.ok 0 "main".data []
  versionFileExists := false
  versionFileRead := none
  describeTags := CmdResult.ok 128 [] "fatal: no tags".data
  revParseHead2 := CmdResult.ok 0 "main".data []
  branchR := CmdResult.ok 0
    "  origin/release/1.0.0\n  origin/Release/1.0.1\n  origin/main".data []
  statusPorcelain := CmdResult.ok 0 [] []
  backupResult := none
  fetchOrigin := CmdResult.ok 0 [] []
  checkoutBranch := CmdResult.ok 0 [] []
  checkoutTrack := CmdResult.ok 0 [] []
  resetHard := CmdResult.ok 0 [] []
  requirementsExists := false
  pipInstall := CmdResult.ok 0 [] []

/-- A fully healthy in-app update run: clean tree, fetch / checkout / pull
all succeed. -/
def c5Env : IotGui.GitUpdateEnv where
  gitpythonAvailable := true
  repoOpenOk := true
  bare := false
  isDirty := false
  resetHead := CmdResult.ok 0 [] []
  cleanFd := CmdResult.ok 0 [] []
  fetch := CmdResult.ok 0 [] []
  checkoutOk := true
  checkoutTrackOk := true
  checkoutErr := []
  pull := CmdResult.ok 0 [] []
  resetOrigin := CmdResult.ok 0 [] []

/-- Whether a relauncher update session completed (reached its success
return) rather than aborting with a raised exception. -/
def svcCompleted : UpdateService.SvcResult → Bool
  | UpdateService.SvcResult.ok _ => true
  | UpdateService.SvcResult.raised _ => false

/-- An `auto_update.perform_update` run on a clean tree where everything
succeeds except `pip install -r requirements.txt --upgrade`, which exits 1. -/
def c4EnvAuto : AutoUpdate.Env where
  revParseHead := CmdResult.ok 0 "release/1.0.0".data []
  versionFileExists := false
  versionFileRead := none
  describeTags := CmdResult.ok 0 "v1.0.0".data []
  revParseHead2 := CmdResult.ok 0 "release/1.0.0".data []
  branchR := CmdResult.ok 0 [] []
  statusPorcelain := CmdResult.ok 0 [] []
  backupResult := some "backup_20240101_000000".data
  fetchOrigin := CmdResult.ok 0 [] []
  checkoutBranch := CmdResult.ok 0 [] []
  checkoutTrack := CmdResult.ok 0 [] []
  resetHard := CmdResult.ok 0 [] []
  requirementsExists := true
  pipInstall := CmdResult.ok 1 [] "boom".data

/-- An `update_service.perform_update` run where fetch, checkout and pull all
succeed and then `pip install -r requirements.txt --upgrade` exits 1. -/
def c4EnvSvc : UpdateService.Env where
  fetch := CmdResult.ok 0 [] []
  checkout := CmdResult.ok 0 [] []
  checkoutTrack := CmdResult.ok 0 [] []
  pull := CmdResult.ok 0 [] []
  resetHard := CmdResult.ok 0 [] []
  venvPython := some "venv/bin/python3".data
  venvCreate := CmdResult.ok 0 [] []
  venvPythonAfterCreate := some "venv/bin/python3".data
  sysExecutable := "python3".data
  requirementsExists := true
  pipUpgrade := CmdResult.ok 0 [] []
  pipInstall := CmdResult.ok 1 [] "boom".data
  pipShow := fun _ => CmdResult.ok 0 [] []

/-! ## Library lemmas about the embedded functions -/

theorem lexCmp_neg : ∀ a b : List Int, lexCmp a b = -lexCmp b a := by
  intro a
  induction a with
  | nil => intro b; cases b <;> simp [lexCmp]
  | cons x xs ih =>
    intro b
    cases b with
    | nil => simp [lexCmp]
    | cons y ys =>
      simp only [lexCmp]
      rcases lt_trichotomy x y with h | h | h
      · simp [h, not_lt_of_gt h, gt_iff_lt]
      · subst h
        simp [lt_irrefl, gt_iff_lt, ih]
      · simp [h, not_lt_of_gt h, gt_iff_lt]

theorem lexCmp_self : ∀ a : List Int, lexCmp a a = 0 := by
  intro a
  induction a with
  | nil => simp [lexCmp]
  | cons x xs ih => simp [lexCmp, lt_irrefl, ih]

theorem lexCmp_vals : ∀ a b : List Int,
    lexCmp a b = -1 ∨ lexCmp a b = 0 ∨ lexCmp a b = 1 := by
  intro a
  induction a with
  | nil => intro b; cases b <;> simp [lexCmp]
  | cons x xs ih =>
    intro b
    cases b with
    | nil => simp [lexCmp]
    | cons y ys =>
      simp only [lexCmp]
      split
      · exact Or.inl rfl
      · split
        · exact Or.inr (Or.inr rfl)
        · exact ih ys

theorem lexCmp_trans_neg : ∀ a b c : List Int,
    a.length = b.length → b.length = c.length →
    lexCmp a b = -1 → lexCmp b c = -1 → lexCmp a c = -1 := by
  intro a
  induction a with
  | nil =>
    intro b c hab _ h1 _
    cases b with
    | nil => simp [lexCmp] at h1
    | cons y ys => simp at hab
  | cons x xs ih =>
    intro b c hab hbc h1 h2
    cases b with
    | nil => simp at hab
    | cons y ys =>
      cases c with
      | nil => simp at hbc
      | cons z zs =>
        simp only [lexCmp] at h1 h2 ⊢
        rcases lt_trichotomy x y with hxy | hxy | hxy
        · rcases lt_trichotomy y z with hyz | hyz | hyz
          · have : x < z := lt_trans hxy hyz
            simp [this]
          · subst hyz; simp [hxy]
          · rw [if_neg (not_lt_of_gt hyz), if_pos hyz] at h2
            exact absurd h2 (by norm_num)
        · subst hxy
          rcases lt_trichotomy x z with hyz | hyz | hyz
          · simp [hyz]
          · subst hyz
            simp only [gt_iff_lt, lt_irrefl, if_false, if_neg (lt_irrefl x)] at h1 h2 ⊢
            have hlen1 : xs.length = ys.length := by simpa using hab
            have hlen2 : ys.length = zs.length := by simpa using hbc
            exact ih ys zs hlen1 hlen2 h1 h2
          · rw [if_neg (not_lt_of_gt hyz), if_pos hyz] at h2
            exact absurd h2 (by norm_num)
        · rw [if_neg (not_lt_of_gt hxy), if_pos hxy] at h1
          exact absurd h1 (by norm_num)

theorem lexCmp_append (a b x y : List Int) (h : a.length = b.length) :
    lexCmp (a ++ x) (b ++ y) = if lexCmp a b = 0 then lexCmp x y else lexCmp a b := by
  induction a generalizing b with
  | nil =>
    cases b with
    | nil => simp [lexCmp]
    | cons _ _ => simp at h
  | cons c cs ih =>
    cases b with
    | nil => simp at h
    | cons d ds =>
      simp only [List.cons_append, lexCmp]
      rcases lt_trichotomy c d with hcd | hcd | hcd
      · simp [hcd]
      · subst hcd
        simp only [lt_irrefl, if_false, gt_iff_lt]
        have hlen : cs.length = ds.length := by simpa using h
        exact ih ds hlen
      · simp [hcd, not_lt_of_gt hcd, gt_iff_lt]

theorem lexCmp_replicate_zero : ∀ n m : Nat,
    lexCmp (List.replicate n 0) (List.replicate m 0) = 0 := by
  intro n
  induction n with
  | zero => intro m; cases m <;> simp [lexCmp]
  | succ k ih =>
    intro m
    cases m with
    | zero => simp [lexCmp]
    | succ l => simp [List.replicate_succ, lexCmp, ih]

theorem padTo_length (l : List Int) (N : Nat) (h : l.length ≤ N) :
    (l ++ List.replicate (N - l.length) 0).length = N := by
  simp [List.length_append, List.length_replicate]
  omega

theorem compareParts_pad (a b : List Int) (N : Nat)
    (h : max a.length b.length ≤ N) :
    lexCmp (a ++ List.replicate (N - a.length) 0)
           (b ++ List.replicate (N - b.length) 0) = compareParts a b := by
  have ha : a.length ≤ max a.length b.length := Nat.le_max_left _ _
  have hb : b.length ≤ max a.length b.length := Nat.le_max_right _ _
  have ea : N - a.length = (max a.length b.length - a.length) + (N - max a.length b.length) := by
    omega
  have eb : N - b.length = (max a.length b.length - b.length) + (N - max a.length b.length) := by
    omega
  rw [ea, eb, List.replicate_add, List.replicate_add, ← List.append_assoc, ← List.append_assoc]
  have hlen : (a ++ List.replicate (max a.length b.length - a.length) 0).length
      = (b ++ List.replicate (max a.length b.length - b.length) 0).length := by
    rw [padTo_length a _ ha, padTo_length b _ hb]
  rw [lexCmp_append _ _ _ _ hlen, lexCmp_replicate_zero]
  unfold compareParts
  split
  · rename_i h0
    rw [h0]
  · rfl

theorem compareParts_neg (a b : List Int) : compareParts a b = -compareParts b a := by
  unfold compareParts
  rw [Nat.max_comm b.length a.length]
  exact lexCmp_neg _ _

theorem compareParts_trans_neg (a b c : List Int) :
    compareParts a b = -1 → compareParts b c = -1 → compareParts a c = -1 := by
  intro h1 h2
  set N := max (max a.length b.length) (max (max b.length c.length) (max a.length c.length)) with hN
  have hab : max a.length b.length ≤ N := le_max_left _ _
  have hbc : max b.length c.length ≤ N := le_trans (le_max_left _ _) (le_max_right _ _)
  have hac : max a.length c.length ≤ N := le_trans (le_max_right _ _) (le_max_right _ _)
  rw [← compareParts_pad a b N hab] at h1
  rw [← compareParts_pad b c N hbc] at h2
  rw [← compareParts_pad a c N hac]
  exact lexCmp_trans_neg _ _ _
    (by rw [padTo_length a N (le_trans (Nat.le_max_left _ _) hab),
            padTo_length b N (le_trans (Nat.le_max_right _ _) hab)])
    (by rw [padTo_length b N (le_trans (Nat.le_max_left _ _) hbc),
            padTo_length c N (le_trans (Nat.le_max_right _ _) hbc)])
    h1 h2

theorem compareParts_vals (a b : List Int) :
    compareParts a b = -1 ∨ compareParts a b = 0 ∨ compareParts a b = 1 := by
  unfold compareParts
  exact lexCmp_vals _ _

theorem lexLt_irrefl : ∀ a : PyStr, lexLt a a = false := by
  intro a
  induction a with
  | nil => simp [lexLt]
  | cons c cs ih => simp [lexLt, ih]

theorem pyStrCmp_self (a : PyStr) : pyStrCmp a a = 0 := by
  simp [pyStrCmp, lexLt_irrefl]

theorem compareParts_self (a : List Int) : compareParts a a = 0 := by
  unfold compareParts
  simp only [Nat.max_self, Nat.sub_self, List.replicate_zero, List.append_nil]
  exact lexCmp_self a

theorem beginsWith_same_length : ∀ (p q s : PyStr), p.length = q.length →
    beginsWith p s = true → beginsWith q s = true → p = q := by
  intro p
  induction p with
  | nil =>
    intro q s hlen _ _
    cases q with
    | nil => rfl
    | cons _ _ => simp at hlen
  | cons a as ih =>
    intro q s hlen h1 h2
    cases q with
    | nil => simp at hlen
    | cons b bs =>
      cases s with
      | nil => simp [beginsWith] at h1
      | cons c cs =>
        simp only [beginsWith, Bool.and_eq_true, decide_eq_true_eq] at h1 h2
        have hrest : as = bs := ih bs cs (by simpa using hlen) h1.2 h2.2
        rw [h1.1, h2.1, hrest]

theorem get_release_branches_lower (env : AutoUpdate.Env) :
    ∀ p ∈ AutoUpdate.get_release_branches env,
      beginsWith "origin/release/".data p.2 = true := by
  unfold AutoUpdate.get_release_branches
  cases h : env.branchR with
  | timeout => simp
  | exn m => simp
  | ok rc out err =>
    by_cases hrc : rc ≠ 0
    · simp [hrc]
    · simp only [hrc, if_false]
      have aux : ∀ (ls : List PyStr) (acc : List (PyStr × PyStr)),
          (∀ p ∈ acc, beginsWith "origin/release/".data p.2 = true) →
          ∀ p ∈ List.foldl
            (fun acc rawLine =>
              let line := pyStrip rawLine
              if beginsWith "origin/release/".data line then
                let version_str := pyStrip (pyReplace line "origin/release/".data "".data)
                if version_str ≠ [] then acc ++ [(version_str, line)] else acc
              else acc)
            acc ls,
            beginsWith "origin/release/".data p.2 = true := by
        intro ls
        induction ls with
        | nil => intro acc hacc p hp; exact hacc p hp
        | cons l ls ihl =>
          intro acc hacc p hp
          rw [List.foldl_cons] at hp
          refine ihl _ ?_ p hp
          intro q hq
          simp only at hq
          by_cases hb : beginsWith "origin/release/".data (pyStrip l) = true
          · rw [if_pos hb] at hq
            by_cases hv : pyStrip (pyReplace (pyStrip l) "origin/release/".data "".data) ≠ []
            · rw [if_pos hv] at hq
              rcases List.mem_append.mp hq with hq | hq
              · exact hacc q hq
              · rcases List.mem_singleton.mp hq with rfl
                exact hb
            · rw [if_neg hv] at hq
              exact hacc q hq
          · rw [if_neg hb] at hq
            exact hacc q hq
      exact aux _ [] (by intro p hp; simp at hp)

/-! ## Claim theorems -/

/-- C1, as stated, is false: the listener accepts POST /webhook requests
regardless of the X-Hub-Signature-256 header even though a secret is
configured.  The two signatures below differ in one byte, so at most one of
them can equal the genuine `sha256=HMAC_SHA256(secret, body)` value; both
requests are nevertheless accepted (202, update thread started), so a body
with a byte of its signature changed is NOT rejected. -/
theorem c1_counterexample :
    WebhookListener.webhook WebhookListener.Method.POST [123, 125]
      (some "sha256=0000000000000000000000000000000000000000000000000000000000000000".data)
      true ⟨0⟩ = (⟨1⟩, 202)
    ∧ WebhookListener.webhook WebhookListener.Method.POST [123, 125]
      (some "sha256=1000000000000000000000000000000000000000000000000000000000000000".data)
      true ⟨0⟩ = (⟨1⟩, 202)
    ∧ "sha256=0000000000000000000000000000000000000000000000000000000000000000".data
      ≠ "sha256=1000000000000000000000000000000000000000000000000000000000000000".data
    ∧ WebhookListener.verify_webhook_signature
        "change-me-to-a-strong-secret-key".data [123, 125]
        (some "sha256=1000000000000000000000000000000000000000000000000000000000000000".data)
      = true := by
  exact ⟨rfl, rfl, by decide, rfl⟩

/-- C1 amended: whether or not a webhook secret is configured, the /webhook
handler's response and effect are independent of the X-Hub-Signature-256
header — signature verification is disabled (`verify_webhook_signature`
returns `True` unconditionally and the handler does not consult it). -/
theorem c1_amended_signature_ignored (secret : PyStr)
    (method : WebhookListener.Method) (body : List Nat)
    (signature signature2 : Option PyStr) (jsonParses : Bool)
    (s : WebhookListener.ListenerState) :
    WebhookListener.webhook method body signature jsonParses s
      = WebhookListener.webhook method body signature2 jsonParses s
    ∧ WebhookListener.verify_webhook_signature secret body signature = true := by
  exact ⟨rfl, rfl⟩

/-- C3, as stated, is false: there is no single-flight guard.  From an idle
listener, a first valid POST /webhook starts an update thread (one active),
and a second POST issued while that session is active is neither rejected
nor coalesced: it is answered 202 and starts a second concurrent run
(two active threads against the same working tree). -/
theorem c3_counterexample :
    WebhookListener.webhook WebhookListener.Method.POST [123, 125] none true ⟨0⟩ = (⟨1⟩, 202)
    ∧ WebhookListener.webhook WebhookListener.Method.POST [123, 125] none true ⟨1⟩ = (⟨2⟩, 202) := by
  exact ⟨rfl, rfl⟩

/-- C3 amended: a "run update" request received while any number of update
sessions are active is always accepted (202) and unconditionally starts one
more concurrent run — the active count increments with no guard flag; the
/trigger endpoint behaves the same way. -/
theorem c3_amended_no_single_flight (s : WebhookListener.ListenerState)
    (body : List Nat) (signature : Option PyStr) (h : body ≠ []) :
    WebhookListener.webhook WebhookListener.Method.POST body signature true s
      = (⟨s.activeUpdates + 1⟩, 202)
    ∧ ∀ m, WebhookListener.trigger m s = (⟨s.activeUpdates + 1⟩, 202) := by
  constructor
  · simp [WebhookListener.webhook, h]
  · intro m; rfl

theorem c3_amended_no_single_flight_witness :
    ([123, 125] : List Nat) ≠ []
    ∧ WebhookListener.webhook WebhookListener.Method.POST [123, 125] none true ⟨5⟩
      = (⟨6⟩, 202) :=
  ⟨by decide, (c3_amended_no_single_flight ⟨5⟩ [123, 125] none (by decide)).1⟩

/-- C10 confirmed: a plain GET to the root path `/` starts the
update-and-restart script in a background thread and answers HTTP 202,
exactly as the /trigger endpoint does. -/
theorem c10_root_get_triggers_update (body : List Nat) (signature : Option PyStr)
    (jsonParses : Bool) (s : WebhookListener.ListenerState) :
    WebhookListener.index WebhookListener.Method.GET body signature jsonParses s
      = (⟨s.activeUpdates + 1⟩, 202)
    ∧ WebhookListener.index WebhookListener.Method.GET body signature jsonParses s
      = WebhookListener.trigger WebhookListener.Method.GET s := by
  exact ⟨rfl, rfl⟩

/-- C2 confirmed: a safe-mode `perform_update` on a dirty working tree fails
immediately with the dirty-working-tree message; the only external step
executed is the `git status` probe — in particular no fetch, checkout,
tracking-branch creation or hard reset ever runs, so no local edit is
overwritten. -/
theorem c2_dirty_tree_fails_before_fetch (env : AutoUpdate.Env)
    (update_dependencies create_backup_before_update : Bool)
    (h : AutoUpdate.has_uncommitted_changes env = true) :
    AutoUpdate.perform_update env update_dependencies create_backup_before_update
      = (⟨false, AutoUpdate.dirtyMsg, []⟩, [AutoUpdate.Step.gitStatus])
    ∧ AutoUpdate.Step.fetch ∉
        (AutoUpdate.perform_update env update_dependencies create_backup_before_update).2
    ∧ AutoUpdate.Step.checkout ∉
        (AutoUpdate.perform_update env update_dependencies create_backup_before_update).2
    ∧ AutoUpdate.Step.resetHard ∉
        (AutoUpdate.perform_update env update_dependencies create_backup_before_update).2 := by
  have heq : AutoUpdate.perform_update env update_dependencies create_backup_before_update
      = (⟨false, AutoUpdate.dirtyMsg, []⟩, [AutoUpdate.Step.gitStatus]) := by
    simp [AutoUpdate.perform_update, h]
  refine ⟨heq, ?_, ?_, ?_⟩ <;> rw [heq] <;> decide

theorem c2_dirty_tree_fails_before_fetch_witness :
    AutoUpdate.has_uncommitted_changes c2Env = true
    ∧ AutoUpdate.perform_update c2Env true true
      = (⟨false, AutoUpdate.dirtyMsg, []⟩, [AutoUpdate.Step.gitStatus]) :=
  ⟨by decide, (c2_dirty_tree_fails_before_fetch c2Env true true (by decide)).1⟩

/-- C9 confirmed: when the `git status --porcelain` probe itself fails —
times out, raises, or exits non-zero — `has_uncommitted_changes` answers
`true`, so a safe-mode `perform_update` refuses to proceed (fails with the
dirty-tree message, never reaching the fetch). -/
theorem c9_probe_failure_treated_as_dirty (env : AutoUpdate.Env)
    (update_dependencies create_backup_before_update : Bool)
    (h : env.statusPorcelain = CmdResult.timeout
      ∨ (∃ m, env.statusPorcelain = CmdResult.exn m)
      ∨ (∃ rc out err, env.statusPorcelain = CmdResult.ok rc out err ∧ rc ≠ 0)) :
    AutoUpdate.has_uncommitted_changes env = true
    ∧ AutoUpdate.perform_update env update_dependencies create_backup_before_update
      = (⟨false, AutoUpdate.dirtyMsg, []⟩, [AutoUpdate.Step.gitStatus])
    ∧ AutoUpdate.Step.fetch ∉
        (AutoUpdate.perform_update env update_dependencies create_backup_before_update).2 := by
  have hd : AutoUpdate.has_uncommitted_changes env = true := by
    rcases h with h | ⟨m, h⟩ | ⟨rc, out, err, h, hrc⟩
    · simp [AutoUpdate.has_uncommitted_changes, h]
    · simp [AutoUpdate.has_uncommitted_changes, h]
    · simp [AutoUpdate.has_uncommitted_changes, h, hrc]
  have heq : AutoUpdate.perform_update env update_dependencies create_backup_before_update
      = (⟨false, AutoUpdate.dirtyMsg, []⟩, [AutoUpdate.Step.gitStatus]) := by
    simp [AutoUpdate.perform_update, hd]
  refine ⟨hd, heq, ?_⟩
  rw [heq]
  decide

theorem c9_probe_failure_treated_as_dirty_witness :
    c9Env.statusPorcelain = CmdResult.timeout
    ∧ (AutoUpdate.has_uncommitted_changes c9Env = true
      ∧ AutoUpdate.perform_update c9Env true true
        = (⟨false, AutoUpdate.dirtyMsg, []⟩, [AutoUpdate.Step.gitStatus])
      ∧ AutoUpdate.Step.fetch ∉ (AutoUpdate.perform_update c9Env true true).2) :=
  ⟨rfl, c9_probe_failure_treated_as_dirty c9Env true true (Or.inl rfl)⟩

/-- C7 confirmed: `_compare_versions` parses both inputs as dot-separated
integer components, right-pads the shorter with zeros and compares
component-wise left to right with the first difference deciding
(`compareParts` is literally that computation); in particular
`compare("1.2", "1.2.0")` is equal and `compare("1.10.0", "1.9.0")` is
greater. -/
theorem c7_componentwise_comparison :
    (∀ v1 v2 parts1 parts2, parseParts v1 = some parts1 → parseParts v2 = some parts2 →
      _compare_versions v1 v2 = compareParts parts1 parts2)
    ∧ _compare_versions "1.2".data "1.2.0".data = 0
    ∧ _compare_versions "1.10.0".data "1.9.0".data = 1 := by
  refine ⟨?_, by decide, by decide⟩
  intro v1 v2 parts1 parts2 h1 h2
  simp [_compare_versions, h1, h2]

theorem c7_componentwise_comparison_witness :
    parseParts "1.2".data = some [1, 2]
    ∧ parseParts "1.3".data = some [1, 3]
    ∧ _compare_versions "1.2".data "1.3".data = compareParts [1, 2] [1, 3] :=
  ⟨by decide, by decide,
    c7_componentwise_comparison.1 "1.2".data "1.3".data [1, 2] [1, 3] (by decide) (by decide)⟩

/-- C8 confirmed: on version strings that both parse as dotted integers,
`_compare_versions` is antisymmetric (`compare(a,b) = -compare(b,a)`) and its
strict part is transitive; every comparison yields -1, 0 or 1 and
`compare(a,a) = 0`; and as soon as either side fails structured parsing, the
pair is compared entirely on the plain-string path — the numeric and string
paths are never mixed within one call. -/
theorem c8_total_order_and_unmixed_fallback :
    (∀ a b pa pb, parseParts a = some pa → parseParts b = some pb →
      _compare_versions a b = -(_compare_versions b a))
    ∧ (∀ a b c pa pb pc, parseParts a = some pa → parseParts b = some pb →
        parseParts c = some pc →
        _compare_versions a b = -1 → _compare_versions b c = -1 →
        _compare_versions a c = -1)
    ∧ (∀ a b, _compare_versions a b = -1 ∨ _compare_versions a b = 0
        ∨ _compare_versions a b = 1)
    ∧ (∀ a, _compare_versions a a = 0)
    ∧ (∀ a b, parseParts a = none ∨ parseParts b = none →
        _compare_versions a b = pyStrCmp a b) := by
  refine ⟨?_, ?_, ?_, ?_, ?_⟩
  · intro a b pa pb ha hb
    simp only [_compare_versions, ha, hb]
    exact compareParts_neg pa pb
  · intro a b c pa pb pc ha hb hc h1 h2
    simp only [_compare_versions, ha, hb, hc] at h1 h2 ⊢
    exact compareParts_trans_neg pa pb pc h1 h2
  · intro a b
    rcases ha : parseParts a with _ | pa <;> rcases hb : parseParts b with _ | pb <;>
      simp only [_compare_versions, ha, hb]
    · unfold pyStrCmp; split_ifs <;> simp
    · unfold pyStrCmp; split_ifs <;> simp
    · unfold pyStrCmp; split_ifs <;> simp
    · exact compareParts_vals pa pb
  · intro a
    rcases ha : parseParts a with _ | pa
    · simp only [_compare_versions, ha]
      exact pyStrCmp_self a
    · simp only [_compare_versions, ha]
      exact compareParts_self pa
  · intro a b h
    rcases h with h | h
    · rcases hb : parseParts b with _ | pb <;> simp [_compare_versions, h, hb]
    · rcases ha : parseParts a with _ | pa <;> simp [_compare_versions, h, ha]

theorem c8_total_order_and_unmixed_fallback_witness :
    parseParts "0.8".data = some [0, 8]
    ∧ parseParts "0.9".data = some [0, 9]
    ∧ parseParts "1.0".data = some [1, 0]
    ∧ parseParts "not.a.version".data = none
    ∧ _compare_versions "0.8".data "0.9".data = -(_compare_versions "0.9".data "0.8".data)
    ∧ _compare_versions "0.8".data "1.0".data = -1
    ∧ _compare_versions "not.a.version".data "1.0".data
      = pyStrCmp "not.a.version".data "1.0".data :=
  ⟨by decide, by decide, by decide, by decide,
    c8_total_order_and_unmixed_fallback.1 "0.8".data "0.9".data [0, 8] [0, 9]
      (by decide) (by decide),
    c8_total_order_and_unmixed_fallback.2.1 "0.8".data "0.9".data "1.0".data
      [0, 8] [0, 9] [1, 0] (by decide) (by decide) (by decide) (by decide) (by decide),
    c8_total_order_and_unmixed_fallback.2.2.2.2 "not.a.version".data "1.0".data
      (Or.inl (by decide))⟩

/-- C6, as stated, is false: only the lowercase `release/` prefix is
recognised.  On a branch named `Release/2.3.4` the resolver does not extract
`2.3.4` (it falls through and returns the raw branch name), and the catalog
omits the `origin/Release/1.0.1` branch while keeping the lowercase one. -/
theorem c6_counterexample :
    AutoUpdate.get_current_version c6EnvUpper = some "Release/2.3.4".data
    ∧ AutoUpdate.get_current_version c6EnvUpper ≠ some "2.3.4".data
    ∧ AutoUpdate.get_release_branches c6EnvBranches
      = [("1.0.0".data, "origin/release/1.0.0".data)]
    ∧ ("1.0.1".data, "origin/Release/1.0.1".data) ∉
        AutoUpdate.get_release_branches c6EnvBranches := by
  refine ⟨by decide, by decide, by decide, by decide⟩

/-- C6 amended: the resolver's branch probe and the catalog's branch filter
recognise only the lowercase `release/` prefix.  Every (version, ref) pair
the catalog returns has a ref starting with `origin/release/` and never one
starting with `origin/Release/`; a lowercase `release/<v>` branch resolves
to `<v>`, while a `Release/<v>` branch is not matched by the probe — the
resolver falls through to the raw branch name — and is excluded from the
catalog. -/
theorem c6_amended_lowercase_only :
    (∀ (env : AutoUpdate.Env) p, p ∈ AutoUpdate.get_release_branches env →
      beginsWith "origin/release/".data p.2 = true)
    ∧ (∀ (env : AutoUpdate.Env) p, p ∈ AutoUpdate.get_release_branches env →
      beginsWith "origin/Release/".data p.2 = false)
    ∧ AutoUpdate.get_current_version c6EnvLower = some "1.2.3".data
    ∧ AutoUpdate.get_current_version c6EnvUpper = some "Release/2.3.4".data
    ∧ AutoUpdate.get_release_branches c6EnvBranches
      = [("1.0.0".data, "origin/release/1.0.0".data)] := by
  refine ⟨get_release_branches_lower, ?_, by decide, by decide, by decide⟩
  intro env p hp
  have hlow := get_release_branches_lower env p hp
  cases hb : beginsWith "origin/Release/".data p.2 with
  | false => rfl
  | true =>
    have heq := beginsWith_same_length "origin/release/".data "origin/Release/".data p.2
      (by decide) hlow hb
    exact absurd heq (by decide)

theorem c6_amended_lowercase_only_witness :
    ("1.0.0".data, "origin/release/1.0.0".data) ∈
        AutoUpdate.get_release_branches c6EnvBranches
    ∧ beginsWith "origin/release/".data "origin/release/1.0.0".data = true
    ∧ beginsWith "origin/Release/".data "origin/release/1.0.0".data = false :=
  ⟨by decide,
    c6_amended_lowercase_only.1 c6EnvBranches ("1.0.0".data, "origin/release/1.0.0".data)
      (by decide),
    c6_amended_lowercase_only.2.1 c6EnvBranches ("1.0.0".data, "origin/release/1.0.0".data)
      (by decide)⟩

/-- C5, as stated, is false for the final stage: on a healthy run with
cancellation requested while the pull stage runs (the flag first reads set
at the non-existent checkpoint after the pull), the session does not
terminate as cancelled — it completes successfully, because no cancellation
checkpoint follows the last stage. -/
theorem c5_counterexample :
    IotGui._do_git_update c5Env (some 4)
      = (IotGui.successFin, [IotGui.GStage.fetch, IotGui.GStage.checkout, IotGui.GStage.pull])
    ∧ (IotGui._do_git_update c5Env (some 4)).1 ≠ IotGui.cancelledFin := by
  exact ⟨by decide, by decide⟩

/-- C5 amended: the cancellation flag is examined only at the four stage
boundaries.  On a healthy run, cancellation first visible at checkpoint 0 or
1 stops the session before the fetch; cancellation requested during the
fetch (first seen at checkpoint 2) lets the fetch complete and terminates
the session as cancelled without entering the checkout; cancellation
requested during the checkout (first seen at checkpoint 3) terminates it
after the checkout without entering the pull; but cancellation requested
during the final pull stage (first seen at checkpoint 4 or later, which is
never examined) is not honored at all — the session runs every stage and
completes successfully.  No stage is ever aborted mid-flight. -/
theorem c5_amended_cancel_at_boundaries (env : IotGui.GitUpdateEnv)
    (fOut fErr pOut pErr : PyStr) (j : Nat)
    (h1 : env.gitpythonAvailable = true) (h2 : env.repoOpenOk = true)
    (h3 : env.bare = false) (h4 : env.isDirty = false)
    (h5 : env.fetch = CmdResult.ok 0 fOut fErr)
    (h6 : env.checkoutOk = true)
    (h7 : env.pull = CmdResult.ok 0 pOut pErr) :
    IotGui._do_git_update env (some 0) = (IotGui.cancelledFin, [])
    ∧ IotGui._do_git_update env (some 1) = (IotGui.cancelledFin, [])
    ∧ IotGui._do_git_update env (some 2) = (IotGui.cancelledFin, [IotGui.GStage.fetch])
    ∧ IotGui._do_git_update env (some 3)
      = (IotGui.cancelledFin, [IotGui.GStage.fetch, IotGui.GStage.checkout])
    ∧ (4 ≤ j → IotGui._do_git_update env (some j)
      = (IotGui.successFin, [IotGui.GStage.fetch, IotGui.GStage.checkout, IotGui.GStage.pull]))
    ∧ IotGui._do_git_update env none
      = (IotGui.successFin, [IotGui.GStage.fetch, IotGui.GStage.checkout, IotGui.GStage.pull]) := by
  refine ⟨?_, ?_, ?_, ?_, ?_, ?_⟩
  · simp [IotGui._do_git_update, IotGui.cancelSeen]
  · simp [IotGui._do_git_update, IotGui.cancelSeen, h1, h2, h3, h4]
  · simp [IotGui._do_git_update, IotGui.cancelSeen, h1, h2, h3, h4, h5]
  · simp [IotGui._do_git_update, IotGui.cancelSeen, h1, h2, h3, h4, h5, h6]
  · intro hj
    have e0 : decide (j ≤ 0) = false := by simp; omega
    have e1 : decide (j ≤ 1) = false := by simp; omega
    have e2 : decide (j ≤ 2) = false := by simp; omega
    have e3 : decide (j ≤ 3) = false := by simp; omega
    simp [IotGui._do_git_update, IotGui.cancelSeen, e0, e1, e2, e3,
      h1, h2, h3, h4, h5, h6, h7]
    omega
  · simp [IotGui._do_git_update, IotGui.cancelSeen, h1, h2, h3, h4, h5, h6, h7]

theorem c5_amended_cancel_at_boundaries_witness :
    c5Env.gitpythonAvailable = true
    ∧ c5Env.fetch = CmdResult.ok 0 [] []
    ∧ IotGui._do_git_update c5Env (some 2) = (IotGui.cancelledFin, [IotGui.GStage.fetch])
    ∧ IotGui._do_git_update c5Env (some 5)
      = (IotGui.successFin, [IotGui.GStage.fetch, IotGui.GStage.checkout, IotGui.GStage.pull]) :=
  ⟨rfl, rfl,
    (c5_amended_cancel_at_boundaries c5Env [] [] [] [] 5 rfl rfl rfl rfl rfl rfl rfl).2.2.1,
    (c5_amended_cancel_at_boundaries c5Env [] [] [] [] 5 rfl rfl rfl rfl rfl rfl rfl).2.2.2.2.1
      (by decide)⟩

/-- C4, as stated, is false for the relauncher: in `update_service.py`, an
update session that reaches the dependency-sync stage (fetch, checkout and
pull all succeeded) and whose `pip install` exits non-zero does NOT complete
— `perform_update` raises `Failed to install dependencies`, `main` exits 1
and the application is never restarted. -/
theorem c4_counterexample :
    UpdateService.perform_update c4EnvSvc
      = UpdateService.SvcResult.raised (UpdateService.SvcError.depInstallFailed "boom".data)
    ∧ svcCompleted (UpdateService.perform_update c4EnvSvc) = false := by
  exact ⟨by decide, by decide⟩

/-- C4 amended: the two dependency-sync implementations diverge.  In
`auto_update.perform_update` a non-zero pip exit does not fail the session —
it still reports success, with the pip failure recorded as a warning in its
log; in `update_service.perform_update` (the relauncher) a non-zero pip exit
raises and aborts the whole update. -/
theorem c4_amended_dep_sync_divergence :
    (∀ (env : AutoUpdate.Env) (cb : Bool) fOut fErr cOut cErr rOut rErr rcP pOut pErr,
      AutoUpdate.has_uncommitted_changes env = false →
      env.fetchOrigin = CmdResult.ok 0 fOut fErr →
      env.checkoutBranch = CmdResult.ok 0 cOut cErr →
      env.resetHard = CmdResult.ok 0 rOut rErr →
      env.requirementsExists = true →
      env.pipInstall = CmdResult.ok rcP pOut pErr → rcP ≠ 0 →
      (AutoUpdate.perform_update env true cb).1.success = true
      ∧ ("pip upgrade had warnings: ".data ++ pErr)
          ∈ (AutoUpdate.perform_update env true cb).1.warnings)
    ∧ (∀ (env : UpdateService.Env) fOut fErr cOut cErr pOut pErr ruc uOut uErr rcI iOut iErr,
      env.fetch = CmdResult.ok 0 fOut fErr →
      env.checkout = CmdResult.ok 0 cOut cErr →
      env.pull = CmdResult.ok 0 pOut pErr →
      env.requirementsExists = true →
      env.pipUpgrade = CmdResult.ok ruc uOut uErr →
      env.pipInstall = CmdResult.ok rcI iOut iErr → rcI ≠ 0 →
      UpdateService.perform_update env
        = UpdateService.SvcResult.raised
            (UpdateService.SvcError.depInstallFailed (if iErr ≠ [] then iErr else iOut))) := by
  constructor
  · intro env cb fOut fErr cOut cErr rOut rErr rcP pOut pErr
    intro hclean hfetch hcheckout hreset hreq hpip hrc
    simp [AutoUpdate.perform_update, hclean, hfetch, hcheckout, hreset, hreq, hpip, hrc]
  · intro env fOut fErr cOut cErr pOut pErr ruc uOut uErr rcI iOut iErr
    intro hfetch hcheckout hpull hreq hup hpip hrc
    simp [UpdateService.perform_update, hfetch, hcheckout, hpull, hreq, hup, hpip, hrc]

theorem c4_amended_dep_sync_divergence_witness :
    AutoUpdate.has_uncommitted_changes c4EnvAuto = false
    ∧ c4EnvAuto.pipInstall = CmdResult.ok 1 [] "boom".data
    ∧ ((AutoUpdate.perform_update c4EnvAuto true true).1.success = true
      ∧ ("pip upgrade had warnings: ".data ++ "boom".data)
          ∈ (AutoUpdate.perform_update c4EnvAuto true true).1.warnings)
    ∧ UpdateService.perform_update c4EnvSvc
      = UpdateService.SvcResult.raised
          (UpdateService.SvcError.depInstallFailed
            (if "boom".data ≠ [] then "boom".data else [])) :=
  ⟨by decide, rfl,
    c4_amended_dep_sync_divergence.1 c4EnvAuto true [] [] [] [] [] [] 1 [] "boom".data
      (by decide) rfl rfl rfl rfl rfl (by decide),
    c4_amended_dep_sync_divergence.2 c4EnvSvc [] [] [] [] [] [] 0 [] [] 1 [] "boom".data
      rfl rfl rfl rfl rfl rfl (by decide)⟩
